import Mathlib

/-!
Shallow embedding of the core of the `the-ray-tracer-challenge` Rust
repository (crate `rtlib`), together with theorems settling the claims
about it.

Conventions of the embedding:
* Rust `f64`/`f32` scalars are embedded as `ℚ` (exact arithmetic); the
  source never relies on overflow or NaN behaviour on the paths treated
  here, and every comparison the source performs (`==`, `<`, `<=`) is
  translated verbatim to the corresponding exact comparison on `ℚ`.
* `panic!`/`unwrap`/`expect` failure is embedded by returning `none`
  (or, where the source itself returns `Result`, by `Except`).
* Rust trait objects (`Box<dyn Shape>`, `Box<dyn Pattern>`) are embedded
  as inductive types over the closed family of variants found in the
  source, with `box_eq` dispatching exactly as each variant's
  `PartialEq` implementation does.
* Irrational operations (`sqrt`, `tan`) and dynamic dispatch whose
  result feeds a claim only opaquely are passed as explicit function
  parameters; each use site notes this.
-/

namespace RT

/-- EPSILON from `src/rtlib/src/math.rs`: `pub const EPSILON: f64 = 0.00001;`. -/
def EPSILON : ℚ := 1 / 100000

/-! ## Color (`src/rtlib/src/color.rs`) -/

/-- Color from `src/rtlib/src/color.rs`: `pub struct Color { pub r: f64, pub g: f64, pub b: f64 }`. -/
structure Color where
  r : ℚ
  g : ℚ
  b : ℚ
deriving DecidableEq, Repr

namespace Color

/-- Color::BLACK. -/
def BLACK : Color := ⟨0, 0, 0⟩

/-- Color::RED. -/
def RED : Color := ⟨1, 0, 0⟩

/-- Color::GREEN. -/
def GREEN : Color := ⟨0, 1, 0⟩

/-- Color::BLUE — note the source literally sets `g: 1.0`, so BLUE equals GREEN. -/
def BLUE : Color := ⟨0, 1, 0⟩

/-- Color::WHITE. -/
def WHITE : Color := ⟨1, 1, 1⟩

/-- Color::rgb. -/
def rgb (r g b : ℚ) : Color := ⟨r, g, b⟩

/-- Color + Color (component-wise, from `impl Add for Color`). -/
def add (a c : Color) : Color := rgb (a.r + c.r) (a.g + c.g) (a.b + c.b)

/-- Color * f64 scalar (component-wise, from `impl Mul<f64> for Color`). -/
def mulScalar (c : Color) (m : ℚ) : Color := ⟨c.r * m, c.g * m, c.b * m⟩

/-- Color PartialEq from the source: per-component absolute difference below EPSILON. -/
def peq (a c : Color) : Bool :=
  |a.r - c.r| < EPSILON ∧ |a.g - c.g| < EPSILON ∧ |a.b - c.b| < EPSILON

end Color

/-! ## Vec4 (`src/rtlib/src/math/vec4.rs`) -/

/-- Vec4 from `src/rtlib/src/math/vec4.rs`: 4-component homogeneous vector, `w = 1` point, `w = 0` direction. -/
structure Vec4 where
  x : ℚ
  y : ℚ
  z : ℚ
  w : ℚ
deriving DecidableEq, Repr

namespace Vec4

/-- Vec4::ZERO. -/
def ZERO : Vec4 := ⟨0, 0, 0, 0⟩

/-- Vec4::POINT_ZERO. -/
def POINT_ZERO : Vec4 := ⟨0, 0, 0, 1⟩

/-- Vec4::VEC_Y_ONE. -/
def VEC_Y_ONE : Vec4 := ⟨0, 1, 0, 0⟩

/-- Vec4::VEC_Z_ONE. -/
def VEC_Z_ONE : Vec4 := ⟨0, 0, 1, 0⟩

/-- Vec4::new. -/
def new (x y z w : ℚ) : Vec4 := ⟨x, y, z, w⟩

/-- Vec4::point (also `new_point` in the older duplicate module). -/
def point (x y z : ℚ) : Vec4 := ⟨x, y, z, 1⟩

/-- Vec4::vec (also `new_vec` in the older duplicate module). -/
def vec (x y z : ℚ) : Vec4 := ⟨x, y, z, 0⟩

/-- Vec4 addition (component-wise, from `impl Add`). -/
def add (a b : Vec4) : Vec4 := ⟨a.x + b.x, a.y + b.y, a.z + b.z, a.w + b.w⟩

/-- Vec4 subtraction (component-wise, from `impl Sub`). -/
def sub (a b : Vec4) : Vec4 := ⟨a.x - b.x, a.y - b.y, a.z - b.z, a.w - b.w⟩

/-- Vec4 negation (from `impl Neg`). -/
def neg (a : Vec4) : Vec4 := ⟨-a.x, -a.y, -a.z, -a.w⟩

/-- Vec4 * f64 scalar (from `impl Mul<f64>`). -/
def smul (a : Vec4) (m : ℚ) : Vec4 := ⟨a.x * m, a.y * m, a.z * m, a.w * m⟩

/-- Vec4 / f64 scalar (from `impl Div<f64>`; `ℚ` division by zero yields 0 where f64 would yield a non-finite value — no panic either way). -/
def divScalar (a : Vec4) (m : ℚ) : Vec4 := ⟨a.x / m, a.y / m, a.z / m, a.w / m⟩

/-- Vec4::dot. -/
def dot (a b : Vec4) : ℚ := a.x * b.x + a.y * b.y + a.z * b.z + a.w * b.w

/-- Vec4::cross from `src/rtlib/src/math/vec4.rs`: panics (here `none`) when `self.w != 0.0`; the second operand's `w` is not checked. -/
def cross (a other : Vec4) : Option Vec4 :=
  if a.w ≠ 0 then none
  else some ⟨a.y * other.z - a.z * other.y,
             a.z * other.x - a.x * other.z,
             a.x * other.y - a.y * other.x, 0⟩

/-- Vec4::reflect: `*self - *normal * 2.0 * self.dot(normal)`. -/
def reflect (a normal : Vec4) : Vec4 := sub a (smul (smul normal 2) (dot a normal))

/-- Vec4::normalize: `self / self.magnitude()`, with `magnitude = sqrt(x² + y² + z² + w²)`; the irrational square root is passed as a parameter. -/
def normalize (sqrt : ℚ → ℚ) (a : Vec4) : Vec4 :=
  divScalar a (sqrt (a.x ^ 2 + a.y ^ 2 + a.z ^ 2 + a.w ^ 2))

end Vec4

/-! ## Matrices (`src/rtlib/src/math/matrix.rs`)

The source stores `data: [[f32; 4]; 4]` and loops over indices; here the
16 entries are explicit fields `aRC` (row `R`, column `C`) and each loop
is unrolled, which a side-by-side reading of the source checks directly. -/

/-- Mat2 from `src/rtlib/src/math/matrix.rs` (entry `aRC` = `data[R][C]`). -/
structure Mat2 where
  a00 : ℚ
  a01 : ℚ
  a10 : ℚ
  a11 : ℚ
deriving DecidableEq, Repr

/-- Mat2::determinant: `data[0][0]*data[1][1] - data[0][1]*data[1][0]`. -/
def Mat2.determinant (m : Mat2) : ℚ := m.a00 * m.a11 - m.a01 * m.a10

/-- Mat3 from `src/rtlib/src/math/matrix.rs` (entry `aRC` = `data[R][C]`). -/
structure Mat3 where
  a00 : ℚ
  a01 : ℚ
  a02 : ℚ
  a10 : ℚ
  a11 : ℚ
  a12 : ℚ
  a20 : ℚ
  a21 : ℚ
  a22 : ℚ
deriving DecidableEq, Repr

/-- Mat3::submatrix: delete row `r` and column `c` (the source's index-shifting double loop, unrolled; out-of-range arguments, on which the source would panic and which it never uses, return a zero matrix). -/
def Mat3.submatrix (m : Mat3) : Nat → Nat → Mat2
  | 0, 0 => ⟨m.a11, m.a12, m.a21, m.a22⟩
  | 0, 1 => ⟨m.a10, m.a12, m.a20, m.a22⟩
  | 0, 2 => ⟨m.a10, m.a11, m.a20, m.a21⟩
  | 1, 0 => ⟨m.a01, m.a02, m.a21, m.a22⟩
  | 1, 1 => ⟨m.a00, m.a02, m.a20, m.a22⟩
  | 1, 2 => ⟨m.a00, m.a01, m.a20, m.a21⟩
  | 2, 0 => ⟨m.a01, m.a02, m.a11, m.a12⟩
  | 2, 1 => ⟨m.a00, m.a02, m.a10, m.a12⟩
  | 2, 2 => ⟨m.a00, m.a01, m.a10, m.a11⟩
  | _, _ => ⟨0, 0, 0, 0⟩

/-- Mat3::minor. -/
def Mat3.minor (m : Mat3) (r c : Nat) : ℚ := (m.submatrix r c).determinant

/-- Mat3::cofactor. -/
def Mat3.cofactor (m : Mat3) (r c : Nat) : ℚ :=
  if (r + c) % 2 = 1 then m.minor r c * -1 else m.minor r c

/-- Mat3::determinant: cofactor expansion along row 0. -/
def Mat3.determinant (m : Mat3) : ℚ :=
  m.a00 * m.cofactor 0 0 + m.a01 * m.cofactor 0 1 + m.a02 * m.cofactor 0 2

/-- Mat4 from `src/rtlib/src/math/matrix.rs` (entry `aRC` = `data[R][C]`). -/
@[ext]
structure Mat4 where
  a00 : ℚ
  a01 : ℚ
  a02 : ℚ
  a03 : ℚ
  a10 : ℚ
  a11 : ℚ
  a12 : ℚ
  a13 : ℚ
  a20 : ℚ
  a21 : ℚ
  a22 : ℚ
  a23 : ℚ
  a30 : ℚ
  a31 : ℚ
  a32 : ℚ
  a33 : ℚ
deriving DecidableEq, Repr

namespace Mat4

/-- Mat4::ZERO. -/
def ZERO : Mat4 := ⟨0, 0, 0, 0, 0, 0, 0, 0, 0, 0, 0, 0, 0, 0, 0, 0⟩

/-- Mat4::IDENTITY (also `Default for Mat4`). -/
def IDENTITY : Mat4 := ⟨1, 0, 0, 0, 0, 1, 0, 0, 0, 0, 1, 0, 0, 0, 0, 1⟩

/-- Mat4::transpose. -/
def transpose (m : Mat4) : Mat4 :=
  ⟨m.a00, m.a10, m.a20, m.a30,
   m.a01, m.a11, m.a21, m.a31,
   m.a02, m.a12, m.a22, m.a32,
   m.a03, m.a13, m.a23, m.a33⟩

/-- Mat4::submatrix: delete row `r` and column `c` (the source's index-shifting double loop, unrolled; out-of-range arguments, on which the source would panic and which it never uses, return a zero matrix). -/
def submatrix (m : Mat4) : Nat → Nat → Mat3
  | 0, 0 => ⟨m.a11, m.a12, m.a13, m.a21, m.a22, m.a23, m.a31, m.a32, m.a33⟩
  | 0, 1 => ⟨m.a10, m.a12, m.a13, m.a20, m.a22, m.a23, m.a30, m.a32, m.a33⟩
  | 0, 2 => ⟨m.a10, m.a11, m.a13, m.a20, m.a21, m.a23, m.a30, m.a31, m.a33⟩
  | 0, 3 => ⟨m.a10, m.a11, m.a12, m.a20, m.a21, m.a22, m.a30, m.a31, m.a32⟩
  | 1, 0 => ⟨m.a01, m.a02, m.a03, m.a21, m.a22, m.a23, m.a31, m.a32, m.a33⟩
  | 1, 1 => ⟨m.a00, m.a02, m.a03, m.a20, m.a22, m.a23, m.a30, m.a32, m.a33⟩
  | 1, 2 => ⟨m.a00, m.a01, m.a03, m.a20, m.a21, m.a23, m.a30, m.a31, m.a33⟩
  | 1, 3 => ⟨m.a00, m.a01, m.a02, m.a20, m.a21, m.a22, m.a30, m.a31, m.a32⟩
  | 2, 0 => ⟨m.a01, m.a02, m.a03, m.a11, m.a12, m.a13, m.a31, m.a32, m.a33⟩
  | 2, 1 => ⟨m.a00, m.a02, m.a03, m.a10, m.a12, m.a13, m.a30, m.a32, m.a33⟩
  | 2, 2 => ⟨m.a00, m.a01, m.a03, m.a10, m.a11, m.a13, m.a30, m.a31, m.a33⟩
  | 2, 3 => ⟨m.a00, m.a01, m.a02, m.a10, m.a11, m.a12, m.a30, m.a31, m.a32⟩
  | 3, 0 => ⟨m.a01, m.a02, m.a03, m.a11, m.a12, m.a13, m.a21, m.a22, m.a23⟩
  | 3, 1 => ⟨m.a00, m.a02, m.a03, m.a10, m.a12, m.a13, m.a20, m.a22, m.a23⟩
  | 3, 2 => ⟨m.a00, m.a01, m.a03, m.a10, m.a11, m.a13, m.a20, m.a21, m.a23⟩
  | 3, 3 => ⟨m.a00, m.a01, m.a02, m.a10, m.a11, m.a12, m.a20, m.a21, m.a22⟩
  | _, _ => ⟨0, 0, 0, 0, 0, 0, 0, 0, 0⟩

/-- Mat4::minor. -/
def minor (m : Mat4) (r c : Nat) : ℚ := (m.submatrix r c).determinant

/-- Mat4::cofactor. -/
def cofactor (m : Mat4) (r c : Nat) : ℚ :=
  if (r + c) % 2 = 1 then m.minor r c * -1 else m.minor r c

/-- Mat4::determinant: cofactor expansion along row 0. -/
def determinant (m : Mat4) : ℚ :=
  m.a00 * m.cofactor 0 0 + m.a01 * m.cofactor 0 1
    + m.a02 * m.cofactor 0 2 + m.a03 * m.cofactor 0 3

/-- Body of the `Ok` branch of Mat4::inverse: `ret.data[c][r] = self.cofactor(r, c) / d` (note the transposed indices), so entry `(i, j)` of the result is `cofactor j i / d`. -/
def invertUnchecked (m : Mat4) (d : ℚ) : Mat4 where
  a00 := m.cofactor 0 0 / d
  a01 := m.cofactor 1 0 / d
  a02 := m.cofactor 2 0 / d
  a03 := m.cofactor 3 0 / d
  a10 := m.cofactor 0 1 / d
  a11 := m.cofactor 1 1 / d
  a12 := m.cofactor 2 1 / d
  a13 := m.cofactor 3 1 / d
  a20 := m.cofactor 0 2 / d
  a21 := m.cofactor 1 2 / d
  a22 := m.cofactor 2 2 / d
  a23 := m.cofactor 3 2 / d
  a30 := m.cofactor 0 3 / d
  a31 := m.cofactor 1 3 / d
  a32 := m.cofactor 2 3 / d
  a33 := m.cofactor 3 3 / d

/-- Mat4::inverse from `src/rtlib/src/math/matrix.rs`: `Err` exactly when the determinant is zero, else the cofactor-transpose divided by the determinant. -/
def inverse (m : Mat4) : Except String Mat4 :=
  let d := m.determinant
  if d = 0 then Except.error "Matrix is not invertible"
  else Except.ok (m.invertUnchecked d)

/-- Mat4 * Mat4 (the source's row-by-column triple loop, unrolled). -/
def mul (a b : Mat4) : Mat4 where
  a00 := a.a00 * b.a00 + a.a01 * b.a10 + a.a02 * b.a20 + a.a03 * b.a30
  a01 := a.a00 * b.a01 + a.a01 * b.a11 + a.a02 * b.a21 + a.a03 * b.a31
  a02 := a.a00 * b.a02 + a.a01 * b.a12 + a.a02 * b.a22 + a.a03 * b.a32
  a03 := a.a00 * b.a03 + a.a01 * b.a13 + a.a02 * b.a23 + a.a03 * b.a33
  a10 := a.a10 * b.a00 + a.a11 * b.a10 + a.a12 * b.a20 + a.a13 * b.a30
  a11 := a.a10 * b.a01 + a.a11 * b.a11 + a.a12 * b.a21 + a.a13 * b.a31
  a12 := a.a10 * b.a02 + a.a11 * b.a12 + a.a12 * b.a22 + a.a13 * b.a32
  a13 := a.a10 * b.a03 + a.a11 * b.a13 + a.a12 * b.a23 + a.a13 * b.a33
  a20 := a.a20 * b.a00 + a.a21 * b.a10 + a.a22 * b.a20 + a.a23 * b.a30
  a21 := a.a20 * b.a01 + a.a21 * b.a11 + a.a22 * b.a21 + a.a23 * b.a31
  a22 := a.a20 * b.a02 + a.a21 * b.a12 + a.a22 * b.a22 + a.a23 * b.a32
  a23 := a.a20 * b.a03 + a.a21 * b.a13 + a.a22 * b.a23 + a.a23 * b.a33
  a30 := a.a30 * b.a00 + a.a31 * b.a10 + a.a32 * b.a20 + a.a33 * b.a30
  a31 := a.a30 * b.a01 + a.a31 * b.a11 + a.a32 * b.a21 + a.a33 * b.a31
  a32 := a.a30 * b.a02 + a.a31 * b.a12 + a.a32 * b.a22 + a.a33 * b.a32
  a33 := a.a30 * b.a03 + a.a31 * b.a13 + a.a32 * b.a23 + a.a33 * b.a33

/-- Mat4 * Vec4 (from `impl Mul<Vec4> for Mat4`). -/
def mulVec (m : Mat4) (v : Vec4) : Vec4 :=
  ⟨m.a00 * v.x + m.a01 * v.y + m.a02 * v.z + m.a03 * v.w,
   m.a10 * v.x + m.a11 * v.y + m.a12 * v.z + m.a13 * v.w,
   m.a20 * v.x + m.a21 * v.y + m.a22 * v.z + m.a23 * v.w,
   m.a30 * v.x + m.a31 * v.y + m.a32 * v.z + m.a33 * v.w⟩

/-- Mat4::translation. -/
def translation (x y z : ℚ) : Mat4 :=
  ⟨1, 0, 0, x, 0, 1, 0, y, 0, 0, 1, z, 0, 0, 0, 1⟩

/-- Mat4::scaling. -/
def scaling (x y z : ℚ) : Mat4 :=
  ⟨x, 0, 0, 0, 0, y, 0, 0, 0, 0, z, 0, 0, 0, 0, 1⟩

/-- Per-component approximate matrix equality with tolerance EPSILON, as used throughout the source's matrix tests and section 8 of the spec (round-trip "within epsilon"). -/
def approxEq (a b : Mat4) : Prop :=
  |a.a00 - b.a00| < EPSILON ∧ |a.a01 - b.a01| < EPSILON ∧
  |a.a02 - b.a02| < EPSILON ∧ |a.a03 - b.a03| < EPSILON ∧
  |a.a10 - b.a10| < EPSILON ∧ |a.a11 - b.a11| < EPSILON ∧
  |a.a12 - b.a12| < EPSILON ∧ |a.a13 - b.a13| < EPSILON ∧
  |a.a20 - b.a20| < EPSILON ∧ |a.a21 - b.a21| < EPSILON ∧
  |a.a22 - b.a22| < EPSILON ∧ |a.a23 - b.a23| < EPSILON ∧
  |a.a30 - b.a30| < EPSILON ∧ |a.a31 - b.a31| < EPSILON ∧
  |a.a32 - b.a32| < EPSILON ∧ |a.a33 - b.a33| < EPSILON

end Mat4

/-! ## Ray (`src/rtlib/src/ray.rs`) -/

/-- Ray from `src/rtlib/src/ray.rs`: origin point and direction vector. -/
structure Ray where
  origin : Vec4
  direction : Vec4
deriving DecidableEq, Repr

namespace Ray

/-- Ray::new (the source takes references and copies). -/
def new (origin direction : Vec4) : Ray := ⟨origin, direction⟩

/-- Ray::position: `origin + direction * t`. -/
def position (r : Ray) (t : ℚ) : Vec4 := Vec4.add r.origin (Vec4.smul r.direction t)

/-- Ray::transform: both components multiplied by the matrix. -/
def transform (r : Ray) (m : Mat4) : Ray := ⟨m.mulVec r.origin, m.mulVec r.direction⟩

end Ray

/-! ## Patterns (`src/rtlib/src/patterns/*.rs`) -/

/-- StripePattern from `src/rtlib/src/patterns/stripes.rs`. -/
structure StripePattern where
  colors : List Color
  transform : Mat4
  inverse_transform : Mat4
deriving DecidableEq, Repr

/-- StripePattern::local_pattern_at: `colors[x.floor().abs() as usize % colors.len()]`; an empty color list would make the source panic (index/`% 0`), embedded as `none`. -/
def StripePattern.local_pattern_at (p : StripePattern) (local_point : Vec4) : Option Color :=
  if h : p.colors.length = 0 then none
  else
    some (p.colors.get
      ⟨(Rat.floor local_point.x).natAbs % p.colors.length,
       Nat.mod_lt _ (Nat.pos_of_ne_zero h)⟩)

/-- StripePattern::set_transform: stores the transform and `transformation.inverse().expect(..)` — the `expect` panic is embedded as `none`. -/
def StripePattern.set_transform (p : StripePattern) (transformation : Mat4) : Option StripePattern :=
  match transformation.inverse with
  | Except.error _ => none
  | Except.ok inv => some { p with transform := transformation, inverse_transform := inv }

/-- RingPattern from `src/rtlib/src/patterns/ring.rs` (state only; its `local_pattern_at` needs `sqrt` and no claim touches it). -/
structure RingPattern where
  colors : List Color
  transform : Mat4
  inverse_transform : Mat4
deriving DecidableEq, Repr

/-- CheckersPattern from `src/rtlib/src/patterns/checkers.rs` (state only). -/
structure CheckersPattern where
  color_a : Color
  color_b : Color
  transform : Mat4
  inverse_transform : Mat4
deriving DecidableEq, Repr

/-- GradientPattern from `src/rtlib/src/patterns/gradient.rs` (state only). -/
structure GradientPattern where
  start_color : Color
  end_color : Color
  transform : Mat4
  inverse_transform : Mat4
deriving DecidableEq, Repr

/-- BoxPattern: the trait object `Box<dyn Pattern>` over the closed variant family in `src/rtlib/src/patterns/`. -/
inductive BoxPattern where
  | stripe (p : StripePattern)
  | ring (p : RingPattern)
  | checkers (p : CheckersPattern)
  | gradient (p : GradientPattern)
deriving DecidableEq, Repr

/-- Element-wise equality of `Vec<Color>` under the source's epsilon-based `Color` PartialEq. -/
def listColorPeq : List Color → List Color → Bool
  | [], [] => true
  | a :: as', b :: bs' => Color.peq a b && listColorPeq as' bs'
  | _, _ => false

/-- BoxPattern `box_eq`: same concrete variant and that variant's derived PartialEq (colors via the epsilon `Color` eq, transforms via exact `f32` array eq). -/
def BoxPattern.box_eq : BoxPattern → BoxPattern → Bool
  | .stripe a, .stripe b =>
    listColorPeq a.colors b.colors
      && a.transform = b.transform && a.inverse_transform = b.inverse_transform
  | .ring a, .ring b =>
    listColorPeq a.colors b.colors
      && a.transform = b.transform && a.inverse_transform = b.inverse_transform
  | .checkers a, .checkers b =>
    Color.peq a.color_a b.color_a && Color.peq a.color_b b.color_b
      && a.transform = b.transform && a.inverse_transform = b.inverse_transform
  | .gradient a, .gradient b =>
    Color.peq a.start_color b.start_color && Color.peq a.end_color b.end_color
      && a.transform = b.transform && a.inverse_transform = b.inverse_transform
  | _, _ => false

/-! ## Material

`src/rtlib/src/material.rs` in the repository is a stale chapter: it
lacks the `reflectivness`, `transparency` and `refractive_index` fields
that `src/rtlib/src/world.rs` and `src/rtlib/src/precompute.rs` read. -/

/-- Modelled from the spec: the Material value type of section 3 — color, ambient/diffuse/specular, shininess, reflectivity ∈ [0,1], transparency ∈ [0,1], refractive_index ≥ 1, optional pattern. The first six fields and `pattern` follow the (stale) `src/rtlib/src/material.rs`; the field names `reflectivness` and `transparency` follow their uses in `src/rtlib/src/world.rs`, and `refractive_index` its use in `src/rtlib/src/precompute.rs`, all missing from the stale struct. -/
structure Material where
  color : Color
  ambient : ℚ
  diffuse : ℚ
  specular : ℚ
  shininess : ℚ
  reflectivness : ℚ
  transparency : ℚ
  refractive_index : ℚ
  pattern : Option BoxPattern
deriving DecidableEq, Repr

/-- Material::default per the stale `material.rs` (white, 0.1/0.9/0.9/200, no pattern), extended with the book/spec defaults for the three modelled fields (reflectivity 0, transparency 0, refractive index 1). -/
def Material.default : Material :=
  { color := Color.WHITE, ambient := 1/10, diffuse := 9/10, specular := 9/10,
    shininess := 200, reflectivness := 0, transparency := 0, refractive_index := 1,
    pattern := none }

/-- Material PartialEq (derived in the source): exact equality on the scalar fields, the epsilon-based `Color` eq on `color`, and `box_eq` on the optional pattern. -/
def Material.peq (a b : Material) : Bool :=
  Color.peq a.color b.color
    && a.ambient = b.ambient && a.diffuse = b.diffuse && a.specular = b.specular
    && a.shininess = b.shininess && a.reflectivness = b.reflectivness
    && a.transparency = b.transparency && a.refractive_index = b.refractive_index
    && match a.pattern, b.pattern with
       | none, none => true
       | some p, some q => BoxPattern.box_eq p q
       | _, _ => false

/-! ## Shapes (`src/rtlib/src/shapes/*.rs`)

Every variant stores `uid`, `transform`, the cached `inverse_transform`
and a `material`; cylinders and cones additionally store `limit_y` and
`closed`. Each variant's `PartialEq` compares only `uid`, `transform`
and `material`. -/

/-- Sphere from `src/rtlib/src/shapes/sphere.rs`. -/
structure Sphere where
  uid : Nat
  transform : Mat4
  inverse_transform : Mat4
  material : Material
deriving DecidableEq, Repr

/-- Plane from `src/rtlib/src/shapes/plane.rs`. -/
structure Plane where
  uid : Nat
  transform : Mat4
  inverse_transform : Mat4
  material : Material
deriving DecidableEq, Repr

/-- Cube from `src/rtlib/src/shapes/cube.rs`. -/
structure Cube where
  uid : Nat
  transform : Mat4
  inverse_transform : Mat4
  material : Material
deriving DecidableEq, Repr

/-- Cylinder from `src/rtlib/src/shapes/cylinder.rs` (`limit_y` bounds as a pair; the `±∞` default is outside `ℚ` and no claim depends on it). -/
structure Cylinder where
  uid : Nat
  transform : Mat4
  inverse_transform : Mat4
  material : Material
  limit_y : ℚ × ℚ
  closed : Bool
deriving DecidableEq, Repr

/-- Cone from `src/rtlib/src/shapes/cone.rs`. -/
structure Cone where
  uid : Nat
  transform : Mat4
  inverse_transform : Mat4
  material : Material
  limit_y : ℚ × ℚ
  closed : Bool
deriving DecidableEq, Repr

/-- BoxShape: the trait object `Box<dyn Shape>` over the closed variant family in `src/rtlib/src/shapes/`. -/
inductive BoxShape where
  | sphere (s : Sphere)
  | plane (p : Plane)
  | cube (c : Cube)
  | cylinder (c : Cylinder)
  | cone (c : Cone)
deriving DecidableEq, Repr

/-- BoxShape `box_eq` (`impl PartialEq for BoxShape` dispatching into each variant's `PartialEq`): same concrete variant, equal `uid`, exactly equal `transform`, and `Material` PartialEq. -/
def BoxShape.box_eq : BoxShape → BoxShape → Bool
  | .sphere a, .sphere b =>
    a.uid = b.uid && a.transform = b.transform && Material.peq a.material b.material
  | .plane a, .plane b =>
    a.uid = b.uid && a.transform = b.transform && Material.peq a.material b.material
  | .cube a, .cube b =>
    a.uid = b.uid && a.transform = b.transform && Material.peq a.material b.material
  | .cylinder a, .cylinder b =>
    a.uid = b.uid && a.transform = b.transform && Material.peq a.material b.material
  | .cone a, .cone b =>
    a.uid = b.uid && a.transform = b.transform && Material.peq a.material b.material
  | _, _ => false

/-- Shape::get_material dispatch. -/
def BoxShape.get_material : BoxShape → Material
  | .sphere s => s.material
  | .plane p => p.material
  | .cube c => c.material
  | .cylinder c => c.material
  | .cone c => c.material

/-- Sphere::set_transform: stores the transform and re-derives the cached inverse via `self.transform.inverse().unwrap()`; the `unwrap` panic on a non-invertible matrix is embedded as `none`. -/
def Sphere.set_transform (s : Sphere) (transformation : Mat4) : Option Sphere :=
  match transformation.inverse with
  | Except.error _ => none
  | Except.ok inv => some { s with transform := transformation, inverse_transform := inv }

/-- Sphere's composing `Shape::transform` method: `self.transform = m * self.transform;` — and nothing else: the cached `inverse_transform` is left untouched. -/
def Sphere.compose_transform (s : Sphere) (m : Mat4) : Sphere :=
  { s with transform := Mat4.mul m s.transform }

/-- Plane::set_transform (same body as the sphere's). -/
def Plane.set_transform (p : Plane) (transformation : Mat4) : Option Plane :=
  match transformation.inverse with
  | Except.error _ => none
  | Except.ok inv => some { p with transform := transformation, inverse_transform := inv }

/-- Plane's composing `Shape::transform` method (same body as the sphere's): the cached inverse is left untouched. -/
def Plane.compose_transform (p : Plane) (m : Mat4) : Plane :=
  { p with transform := Mat4.mul m p.transform }

/-- Cylinder::local_normal_at from `src/rtlib/src/shapes/cylinder.rs`: cap normals within radius 1 and EPSILON of a y-limit, else the lateral `(x, 0, z)`. -/
def Cylinder.local_normal_at (c : Cylinder) (local_point : Vec4) : Vec4 :=
  let dist := local_point.x ^ 2 + local_point.z ^ 2
  if dist < 1 ∧ local_point.y ≥ c.limit_y.2 - EPSILON then Vec4.VEC_Y_ONE
  else if dist < 1 ∧ local_point.y ≤ c.limit_y.1 + EPSILON then Vec4.neg Vec4.VEC_Y_ONE
  else Vec4.vec local_point.x 0 local_point.z

/-- Cone::local_normal_at from `src/rtlib/src/shapes/cone.rs` — textually identical to the cylinder's, including the lateral `(x, 0, z)` branch. -/
def Cone.local_normal_at (c : Cone) (local_point : Vec4) : Vec4 :=
  let dist := local_point.x ^ 2 + local_point.z ^ 2
  if dist < 1 ∧ local_point.y ≥ c.limit_y.2 - EPSILON then Vec4.VEC_Y_ONE
  else if dist < 1 ∧ local_point.y ≤ c.limit_y.1 + EPSILON then Vec4.neg Vec4.VEC_Y_ONE
  else Vec4.vec local_point.x 0 local_point.z

/-! ## Lights (`src/rtlib/src/light.rs`) -/

/-- PointLight: position and intensity. -/
structure PointLight where
  intensity : Color
  position : Vec4
deriving DecidableEq, Repr

/-! ## Intersections (`src/rtlib/src/intersection.rs`) -/

/-- Intersection: a shape reference and the ray parameter `t`. -/
structure Intersection where
  object : BoxShape
  t : ℚ
deriving DecidableEq, Repr

/-- Intersection PartialEq from the source: `(self.t - other.t).abs() < EPSILON && &self.object == &other.object`. -/
def Intersection.peq (a other : Intersection) : Bool :=
  |a.t - other.t| < EPSILON && BoxShape.box_eq a.object other.object

/-- Intersections: the ordered collection wrapper around `Vec<Intersection>`. -/
structure Intersections where
  inner : List Intersection
deriving DecidableEq, Repr

namespace Intersections

/-- Intersections::new (capacity hint dropped). -/
def new : Intersections := ⟨[]⟩

/-- Intersections::push. -/
def push (xs : Intersections) (i : Intersection) : Intersections := ⟨xs.inner ++ [i]⟩

/-- Intersections::len. -/
def len (xs : Intersections) : Nat := xs.inner.length

/-- Intersections::append: moves the other collection's elements to the end of this one. -/
def append (xs other : Intersections) : Intersections := ⟨xs.inner ++ other.inner⟩

/-- Intersections::sort: `sort_by(t.partial_cmp)` — a stable sort by `t` (on `ℚ` the comparison is total, so the source's NaN `expect` cannot fire). -/
def sort (xs : Intersections) : Intersections :=
  ⟨xs.inner.mergeSort (fun a b => a.t ≤ b.t)⟩

/-- Intersections::hit from `src/rtlib/src/intersection.rs`: `self.inner.iter().find(|i| i.t >= 0.0)` — the first element (in stored order) with non-negative `t`. -/
def hit (xs : Intersections) : Option Intersection :=
  xs.inner.find? (fun i => i.t ≥ 0)

end Intersections

/-! ## PreCompute (`src/rtlib/src/precompute.rs`) -/

/-- PreCompute: the derived shading context (fields as in the source; the source prefixes the unread ones with an underscore). -/
structure PreCompute where
  t : ℚ
  object : BoxShape
  point : Vec4
  eye_vec : Vec4
  normal : Vec4
  inside : Bool
  over_point : Vec4
  under_point : Vec4
  reflect_vec : Vec4
  n1 : ℚ
  n2 : ℚ
deriving DecidableEq, Repr

namespace PreCompute

/-- PreCompute::get_material: `self.object.get_material()`. -/
def get_material (comps : PreCompute) : Material := comps.object.get_material

/-- PreCompute::get_overpoint. -/
def get_overpoint (comps : PreCompute) : Vec4 := comps.over_point

/-- PreCompute::get_reflect_vec. -/
def get_reflect_vec (comps : PreCompute) : Vec4 := comps.reflect_vec

/-- PreCompute::get_snells_law_value: `(n1/n2)² * (1 - cos²θi)` with `cosθi = eye_vec.dot(normal)`. -/
def get_snells_law_value (comps : PreCompute) : ℚ :=
  let n_ratio := comps.n1 / comps.n2
  let cos_i := Vec4.dot comps.eye_vec comps.normal
  n_ratio ^ 2 * (1 - cos_i ^ 2)

/-- The `if containers.is_empty() { 1.0 } else { containers.last().unwrap().get_material().refractive_index }` step of PreCompute::new. -/
def lastRefractiveOrVacuum (containers : List BoxShape) : ℚ :=
  match containers.getLast? with
  | none => 1
  | some c => c.get_material.refractive_index

/-- The membership-toggle step of PreCompute::new: `position(|x| x == &xi.object)` then `remove(index)`, else `push(xi.object)`. -/
def toggleContainer (containers : List BoxShape) (obj : BoxShape) : List BoxShape :=
  match containers.findIdx? (fun x => BoxShape.box_eq x obj) with
  | some index => containers.eraseIdx index
  | none => containers ++ [obj]

/-- Loop of PreCompute::new (`src/rtlib/src/precompute.rs` lines 40–65) computing `(n1, n2)`: scan `xs` in order keeping the `containers` list; when the element equals the target hit `i`, set `n1` from the innermost container before toggling and `n2` after, then break. `n1`/`n2` start at `0.0`. -/
def n1n2 (i : Intersection) : List Intersection → List BoxShape → ℚ → ℚ → ℚ × ℚ
  | [], _, n1, n2 => (n1, n2)
  | xi :: rest, containers, n1, n2 =>
    let n1' := if Intersection.peq xi i then lastRefractiveOrVacuum containers else n1
    let containers' := toggleContainer containers xi.object
    if Intersection.peq xi i then (n1', lastRefractiveOrVacuum containers')
    else n1n2 i rest containers' n1' n2

/-- Modelled from the spec: `PreCompute::get_refracted_ray` is called by `World::refracted_color` in `src/rtlib/src/world.rs` but absent from the (stale) `src/rtlib/src/precompute.rs`. Section 4.5 of the spec: compute the Snell term `sin²θt = (n1/n2)²(1 − cos²θi)` (the source's `get_snells_law_value`); if `≥ 1`, total internal reflection — no ray; else the refracted ray starts at the under-point with the analytically computed direction `normal·(n_ratio·cosθi − cosθt) − eye·n_ratio`, `cosθt = sqrt(1 − sin²θt)` (square root abstracted). -/
def get_refracted_ray (sqrt : ℚ → ℚ) (comps : PreCompute) : Option Ray :=
  let sin2_t := comps.get_snells_law_value
  if 1 ≤ sin2_t then none
  else
    let cos_i := Vec4.dot comps.eye_vec comps.normal
    let cos_t := sqrt (1 - sin2_t)
    let n_ratio := comps.n1 / comps.n2
    some (Ray.new comps.under_point
      (Vec4.sub (Vec4.smul comps.normal (n_ratio * cos_i - cos_t))
                (Vec4.smul comps.eye_vec n_ratio)))

end PreCompute

/-! ## World (`src/rtlib/src/world.rs`)

Dynamic dispatch through the `Shape` trait object (whose per-variant
`local_intersect` bodies involve real square roots) and the recursive
call back into `World::color_at` are passed as explicit function
parameters `object_intersect` and `color_at`. -/

/-- World: the shape and light collections. -/
structure World where
  objects : List BoxShape
  lights : List PointLight

/-- World::intersect: append every shape's intersections (`object.intersect(ray)`, dispatched through `object_intersect`) and sort the combined collection by `t`. -/
def World.intersect (object_intersect : BoxShape → Ray → Intersections)
    (w : World) (ray : Ray) : Intersections :=
  Intersections.sort
    (w.objects.foldl
      (fun intersections object => intersections.append (object_intersect object ray))
      Intersections.new)

/-- World::reflected_color from `src/rtlib/src/world.rs`: black when `reflectivness <= 0.0 || max_reflections <= 0`, else the recursive `color_at` on the reflection ray (the recursion, `self.color_at`, is the `color_at` parameter), scaled by the reflectivity. -/
def World.reflected_color (color_at : Ray → Nat → Color)
    (comps : PreCompute) (max_reflections : Nat) : Color :=
  let reflectivness := comps.get_material.reflectivness
  if reflectivness ≤ 0 ∨ max_reflections ≤ 0 then Color.BLACK
  else
    let reflect_ray := Ray.new comps.get_overpoint comps.get_reflect_vec
    let color := color_at reflect_ray (max_reflections - 1)
    Color.mulScalar color reflectivness

/-- World::refracted_color from `src/rtlib/src/world.rs`: black when `transparency <= 0.0 || max_refractions <= 0`; else, if `get_refracted_ray` yields a ray (no total internal reflection), the recursive `color_at` on it scaled by the transparency, otherwise black. -/
def World.refracted_color (color_at : Ray → Nat → Color) (sqrt : ℚ → ℚ)
    (comps : PreCompute) (max_refractions : Nat) : Color :=
  let transparency := comps.get_material.transparency
  if transparency ≤ 0 ∨ max_refractions ≤ 0 then Color.BLACK
  else
    match comps.get_refracted_ray sqrt with
    | some refracted_ray => Color.mulScalar (color_at refracted_ray (max_refractions - 1)) transparency
    | none => Color.BLACK

/-! ## Camera (`src/rtlib/src/camera.rs`) -/

/-- Camera: dimensions, field of view, view transform and the derived pixel geometry (all stored fields; `Camera::new`'s `tan` only ever feeds these stored values). -/
structure Camera where
  height : Nat
  width : Nat
  fov : ℚ
  transform : Mat4
  pixel_size : ℚ
  half_height : ℚ
  half_width : ℚ

/-- Camera::ray_for_pixel from `src/rtlib/src/camera.rs`: pixel-center offsets, then the inverse view transform (`self.transform.inverse().expect(..)`, computed twice on the same matrix in the source — its panic is embedded as `none`) applied to the pixel point and the origin, direction normalized. -/
def Camera.ray_for_pixel (sqrt : ℚ → ℚ) (c : Camera) (x y : Nat) : Option Ray :=
  let x_offset := ((x : ℚ) + 1/2) * c.pixel_size
  let y_offset := ((y : ℚ) + 1/2) * c.pixel_size
  let world_x := c.half_width - x_offset
  let world_y := c.half_height - y_offset
  match c.transform.inverse with
  | Except.error _ => none
  | Except.ok inv =>
    let pixel := inv.mulVec (Vec4.point world_x world_y (-1))
    let origin := inv.mulVec Vec4.POINT_ZERO
    let direction := Vec4.normalize sqrt (Vec4.sub pixel origin)
    some (Ray.new origin direction)

/-! ## Claim-side specification definitions and concrete instances -/

/-- Specification-side restatement of the refractive-index scan, written from the claim's words: walk the list in order; at the target hit, `n1` is the innermost (last) container's refractive index or 1.0 if none, the hit shape's membership is then toggled, `n2` is read the same way from the updated containers, and the scan stops; `none` when the list does not contain the target hit. -/
def n1n2SpecScan (hit : Intersection) : List Intersection → List BoxShape → Option (ℚ × ℚ)
  | [], _ => none
  | xi :: rest, containers =>
    if Intersection.peq xi hit then
      let n1 := PreCompute.lastRefractiveOrVacuum containers
      let containers' := PreCompute.toggleContainer containers xi.object
      some (n1, PreCompute.lastRefractiveOrVacuum containers')
    else n1n2SpecScan hit rest (PreCompute.toggleContainer containers xi.object)

/-- Sphere::default with `uid` 0 (the uid is drawn from a global counter; its concrete value is irrelevant to every property here). -/
def defaultSphere : Sphere :=
  { uid := 0, transform := Mat4.IDENTITY, inverse_transform := Mat4.IDENTITY,
    material := Material.default }

/-- A second default sphere with a distinct uid and a glass-like material (refractive index 3/2). -/
def glassSphere : Sphere :=
  { uid := 1, transform := Mat4.IDENTITY, inverse_transform := Mat4.IDENTITY,
    material := { Material.default with transparency := 1, refractive_index := 3/2 } }

/-- A three-color stripe pattern (colors chosen pairwise distinct). -/
def stripePat3 : StripePattern :=
  { colors := [Color.RED, Color.WHITE, Color.BLACK],
    transform := Mat4.IDENTITY, inverse_transform := Mat4.IDENTITY }

/-- A concrete truncated cone for witnesses, limited to y ∈ (0, 1). -/
def exampleCone : Cone :=
  { uid := 2, transform := Mat4.IDENTITY, inverse_transform := Mat4.IDENTITY,
    material := Material.default, limit_y := (0, 1), closed := true }

/-- A concrete truncated cylinder for witnesses, limited to y ∈ (0, 1). -/
def exampleCylinder : Cylinder :=
  { uid := 3, transform := Mat4.IDENTITY, inverse_transform := Mat4.IDENTITY,
    material := Material.default, limit_y := (0, 1), closed := true }

/-- The intersection list for the C3 witness: the glass sphere entered at t = 4 and left at t = 6. -/
def glassXs : List Intersection :=
  [⟨BoxShape.sphere glassSphere, 4⟩, ⟨BoxShape.sphere glassSphere, 6⟩]

/-- The target hit for the C3 witness. -/
def glassHit : Intersection := ⟨BoxShape.sphere glassSphere, 4⟩

/-- A concrete unsorted-input example collection for the C1 witness (listed already in ascending `t`). -/
def hitWitnessXs : Intersections :=
  ⟨[⟨BoxShape.sphere defaultSphere, -3⟩, ⟨BoxShape.sphere defaultSphere, 2⟩,
    ⟨BoxShape.sphere defaultSphere, 5⟩]⟩

/-! ## Theorems for the claims -/

/-- Closed form of `Mat4::determinant` (definitional unfolding of the cofactor expansion). -/
theorem Mat4.determinant_expand (m : Mat4) :
    m.determinant =
      m.a00 * (m.a11 * (m.a22 * m.a33 - m.a23 * m.a32) + m.a12 * ((m.a21 * m.a33 - m.a23 * m.a31) * -1) + m.a13 * (m.a21 * m.a32 - m.a22 * m.a31))
      + m.a01 * ((m.a10 * (m.a22 * m.a33 - m.a23 * m.a32) + m.a12 * ((m.a20 * m.a33 - m.a23 * m.a30) * -1) + m.a13 * (m.a20 * m.a32 - m.a22 * m.a30)) * -1)
      + m.a02 * (m.a10 * (m.a21 * m.a33 - m.a23 * m.a31) + m.a11 * ((m.a20 * m.a33 - m.a23 * m.a30) * -1) + m.a13 * (m.a20 * m.a31 - m.a21 * m.a30))
      + m.a03 * ((m.a10 * (m.a21 * m.a32 - m.a22 * m.a31) + m.a11 * ((m.a20 * m.a32 - m.a22 * m.a30) * -1) + m.a12 * (m.a20 * m.a31 - m.a21 * m.a30)) * -1) := rfl

/-- Closed form of the `Ok` branch of `Mat4::inverse` (definitional unfolding: entry (i, j) is `cofactor j i / d`). -/
theorem Mat4.invertUnchecked_expand (m : Mat4) (d : ℚ) :
    m.invertUnchecked d = Mat4.mk
      ((m.a11 * (m.a22 * m.a33 - m.a23 * m.a32) + m.a12 * ((m.a21 * m.a33 - m.a23 * m.a31) * -1) + m.a13 * (m.a21 * m.a32 - m.a22 * m.a31)) / d)
      (((m.a01 * (m.a22 * m.a33 - m.a23 * m.a32) + m.a02 * ((m.a21 * m.a33 - m.a23 * m.a31) * -1) + m.a03 * (m.a21 * m.a32 - m.a22 * m.a31)) * -1) / d)
      ((m.a01 * (m.a12 * m.a33 - m.a13 * m.a32) + m.a02 * ((m.a11 * m.a33 - m.a13 * m.a31) * -1) + m.a03 * (m.a11 * m.a32 - m.a12 * m.a31)) / d)
      (((m.a01 * (m.a12 * m.a23 - m.a13 * m.a22) + m.a02 * ((m.a11 * m.a23 - m.a13 * m.a21) * -1) + m.a03 * (m.a11 * m.a22 - m.a12 * m.a21)) * -1) / d)
      (((m.a10 * (m.a22 * m.a33 - m.a23 * m.a32) + m.a12 * ((m.a20 * m.a33 - m.a23 * m.a30) * -1) + m.a13 * (m.a20 * m.a32 - m.a22 * m.a30)) * -1) / d)
      ((m.a00 * (m.a22 * m.a33 - m.a23 * m.a32) + m.a02 * ((m.a20 * m.a33 - m.a23 * m.a30) * -1) + m.a03 * (m.a20 * m.a32 - m.a22 * m.a30)) / d)
      (((m.a00 * (m.a12 * m.a33 - m.a13 * m.a32) + m.a02 * ((m.a10 * m.a33 - m.a13 * m.a30) * -1) + m.a03 * (m.a10 * m.a32 - m.a12 * m.a30)) * -1) / d)
      ((m.a00 * (m.a12 * m.a23 - m.a13 * m.a22) + m.a02 * ((m.a10 * m.a23 - m.a13 * m.a20) * -1) + m.a03 * (m.a10 * m.a22 - m.a12 * m.a20)) / d)
      ((m.a10 * (m.a21 * m.a33 - m.a23 * m.a31) + m.a11 * ((m.a20 * m.a33 - m.a23 * m.a30) * -1) + m.a13 * (m.a20 * m.a31 - m.a21 * m.a30)) / d)
      (((m.a00 * (m.a21 * m.a33 - m.a23 * m.a31) + m.a01 * ((m.a20 * m.a33 - m.a23 * m.a30) * -1) + m.a03 * (m.a20 * m.a31 - m.a21 * m.a30)) * -1) / d)
      ((m.a00 * (m.a11 * m.a33 - m.a13 * m.a31) + m.a01 * ((m.a10 * m.a33 - m.a13 * m.a30) * -1) + m.a03 * (m.a10 * m.a31 - m.a11 * m.a30)) / d)
      (((m.a00 * (m.a11 * m.a23 - m.a13 * m.a21) + m.a01 * ((m.a10 * m.a23 - m.a13 * m.a20) * -1) + m.a03 * (m.a10 * m.a21 - m.a11 * m.a20)) * -1) / d)
      (((m.a10 * (m.a21 * m.a32 - m.a22 * m.a31) + m.a11 * ((m.a20 * m.a32 - m.a22 * m.a30) * -1) + m.a12 * (m.a20 * m.a31 - m.a21 * m.a30)) * -1) / d)
      ((m.a00 * (m.a21 * m.a32 - m.a22 * m.a31) + m.a01 * ((m.a20 * m.a32 - m.a22 * m.a30) * -1) + m.a02 * (m.a20 * m.a31 - m.a21 * m.a30)) / d)
      (((m.a00 * (m.a11 * m.a32 - m.a12 * m.a31) + m.a01 * ((m.a10 * m.a32 - m.a12 * m.a30) * -1) + m.a02 * (m.a10 * m.a31 - m.a11 * m.a30)) * -1) / d)
      ((m.a00 * (m.a11 * m.a22 - m.a12 * m.a21) + m.a01 * ((m.a10 * m.a22 - m.a12 * m.a20) * -1) + m.a02 * (m.a10 * m.a21 - m.a11 * m.a20)) / d) := rfl


/-- Mat4 multiplication is associative (entry-wise ring identity). -/
theorem Mat4.mul_assoc4 (a b c : Mat4) :
    Mat4.mul (Mat4.mul a b) c = Mat4.mul a (Mat4.mul b c) := by
  ext <;> (simp only [Mat4.mul]; ring)

/-- The identity matrix is a right unit for Mat4 multiplication. -/
theorem Mat4.mul_IDENTITY (a : Mat4) : Mat4.mul a Mat4.IDENTITY = a := by
  ext <;> (simp only [Mat4.mul, Mat4.IDENTITY]; ring)

/-- The identity matrix is a left unit for Mat4 multiplication. -/
theorem Mat4.IDENTITY_mul (a : Mat4) : Mat4.mul Mat4.IDENTITY a = a := by
  ext <;> (simp only [Mat4.mul, Mat4.IDENTITY]; ring)

/-- The determinant of the identity matrix is 1. -/
theorem Mat4.determinant_IDENTITY : Mat4.IDENTITY.determinant = 1 := by
  rw [Mat4.determinant_expand]
  norm_num [Mat4.IDENTITY]

set_option maxHeartbeats 2000000 in
/-- The source's cofactor-expansion determinant is multiplicative. -/
theorem Mat4.determinant_mul (a b : Mat4) :
    (Mat4.mul a b).determinant = a.determinant * b.determinant := by
  simp only [Mat4.determinant_expand, Mat4.mul]
  ring

set_option maxHeartbeats 1000000 in
/-- When the determinant equals a non-zero scalar `d`, the matrix times its cofactor-transpose inverse (as built by `Mat4::inverse`) is the identity. -/
theorem Mat4.mul_invertUnchecked_general (m : Mat4) (d : ℚ) (hd : d ≠ 0)
    (hdet : m.determinant = d) :
    Mat4.mul m (m.invertUnchecked d) = Mat4.IDENTITY := by
  ext <;>
    (simp only [Mat4.mul, Mat4.invertUnchecked_expand, Mat4.IDENTITY]
     simp only [← mul_div_assoc, div_add_div_same]
     rw [div_eq_iff hd, ← hdet, Mat4.determinant_expand]
     ring)

set_option maxHeartbeats 1000000 in
/-- When the determinant equals a non-zero scalar `d`, the cofactor-transpose inverse times the matrix is the identity. -/
theorem Mat4.invertUnchecked_mul_general (m : Mat4) (d : ℚ) (hd : d ≠ 0)
    (hdet : m.determinant = d) :
    Mat4.mul (m.invertUnchecked d) m = Mat4.IDENTITY := by
  ext <;>
    (simp only [Mat4.mul, Mat4.invertUnchecked_expand, Mat4.IDENTITY]
     simp only [div_mul_eq_mul_div, div_add_div_same]
     rw [div_eq_iff hd, ← hdet, Mat4.determinant_expand]
     ring)

/-- Approximate equality is reflexive (the differences are all zero). -/
theorem Mat4.approxEq_refl (m : Mat4) : m.approxEq m := by
  simp only [Mat4.approxEq, sub_self, abs_zero, EPSILON]
  norm_num


/-- C2: for every PreCompute shading context, `World::reflected_color` and `World::refracted_color` at depth 0 return black, whatever the material's reflectivity and transparency and whatever the recursive `color_at` (and the square root used by refraction) would compute — the depth-0 base case terminates the recursion. -/
theorem reflected_refracted_color_depth_zero_black
    (color_at : Ray → Nat → Color) (sqrt : ℚ → ℚ) (comps : PreCompute) :
    World.reflected_color color_at comps 0 = Color.BLACK ∧
      World.refracted_color color_at sqrt comps 0 = Color.BLACK := by
  constructor
  · simp [World.reflected_color]
  · simp [World.refracted_color]

/-- C8 counterexample: the claim says `Vec4::cross` rejects the call when either operand has `w ≠ 0`; but with a first operand of `w = 0` and a second operand with `w = 1` the source does not panic and returns a result. -/
theorem cross_second_operand_not_checked :
    Vec4.cross (Vec4.mk 0 0 0 0) (Vec4.mk 1 2 3 1) = some (Vec4.mk 0 0 0 0) := by
  simp [Vec4.cross]

/-- C8 amended: `Vec4::cross` panics exactly when the first operand has `w ≠ 0` (the second operand's `w` is not checked), and every returned result has `w = 0`. -/
theorem cross_panics_iff_first_w_ne_zero (a b : Vec4) :
    ((Vec4.cross a b).isNone ↔ a.w ≠ 0) ∧
      (∀ v, Vec4.cross a b = some v → v.w = 0) := by
  constructor
  · by_cases h : a.w = 0 <;> simp [Vec4.cross, h]
  · intro v hv
    by_cases h : a.w = 0
    · simp [Vec4.cross, h] at hv
      rw [← hv]
    · simp [Vec4.cross, h] at hv

/-- C8 amended, witness: applied to the concrete vectors (1,2,3,0) and (2,3,4,0); the cross product is (-1,2,-1,0) and its `w` is 0. -/
theorem cross_panics_iff_first_w_ne_zero_witness :
    ¬ (Vec4.cross (Vec4.vec 1 2 3) (Vec4.vec 2 3 4)).isNone = true ∧
      (Vec4.mk (-1) 2 (-1) 0).w = 0 :=
  ⟨fun hn => by
      have := (cross_panics_iff_first_w_ne_zero (Vec4.vec 1 2 3) (Vec4.vec 2 3 4)).1.mp hn
      exact this rfl,
   (cross_panics_iff_first_w_ne_zero (Vec4.vec 1 2 3) (Vec4.vec 2 3 4)).2
     (Vec4.mk (-1) 2 (-1) 0) (by simp [Vec4.cross, Vec4.vec]; norm_num)⟩

/-- C6: a non-invertible (zero-determinant) transform fails fatally rather than being silently replaced: `Mat4::inverse` errors exactly when the determinant is zero, and `Sphere::set_transform`, the stripe pattern's `set_transform` and `Camera::ray_for_pixel` unwrap that result, so they panic (here: return `none`) exactly when the determinant is zero. -/
theorem noninvertible_transform_fails_fatally :
    (∀ m : Mat4, (∃ e, m.inverse = Except.error e) ↔ m.determinant = 0) ∧
      (∀ (s : Sphere) (t : Mat4), s.set_transform t = none ↔ t.determinant = 0) ∧
      (∀ (p : StripePattern) (t : Mat4), p.set_transform t = none ↔ t.determinant = 0) ∧
      (∀ (sqrt : ℚ → ℚ) (c : Camera) (x y : Nat),
        c.ray_for_pixel sqrt x y = none ↔ c.transform.determinant = 0) := by
  have hinv : ∀ m : Mat4, (∃ e, m.inverse = Except.error e) ↔ m.determinant = 0 := by
    intro m
    by_cases h : m.determinant = 0 <;> simp [Mat4.inverse, h]
  refine ⟨hinv, ?_, ?_, ?_⟩
  · intro s t
    by_cases h : t.determinant = 0 <;> simp [Sphere.set_transform, Mat4.inverse, h]
  · intro p t
    by_cases h : t.determinant = 0 <;> simp [StripePattern.set_transform, Mat4.inverse, h]
  · intro sqrt c x y
    by_cases h : c.transform.determinant = 0 <;>
      simp [Camera.ray_for_pixel, Mat4.inverse, h]

/-- C10: at every local point off the end caps (lateral distance at least 1, or `y` strictly more than EPSILON inside both y-limits), the cone's local normal is `(x, 0, z)` — zero y-component — and agrees exactly with the cylinder's local normal for the same limits. -/
theorem cone_lateral_normal_eq_cylinder (c : Cone) (cy : Cylinder) (p : Vec4)
    (hl : c.limit_y = cy.limit_y)
    (h : 1 ≤ p.x ^ 2 + p.z ^ 2 ∨
      (c.limit_y.1 + EPSILON < p.y ∧ p.y < c.limit_y.2 - EPSILON)) :
    c.local_normal_at p = Vec4.vec p.x 0 p.z ∧
      c.local_normal_at p = cy.local_normal_at p := by
  have hcap1 : ¬ (p.x ^ 2 + p.z ^ 2 < 1 ∧ p.y ≥ c.limit_y.2 - EPSILON) := by
    rcases h with h | ⟨_, h2⟩
    · exact fun hc => absurd hc.1 (not_lt.mpr h)
    · exact fun hc => absurd hc.2 (not_le.mpr h2)
  have hcap2 : ¬ (p.x ^ 2 + p.z ^ 2 < 1 ∧ p.y ≤ c.limit_y.1 + EPSILON) := by
    rcases h with h | ⟨h1, _⟩
    · exact fun hc => absurd hc.1 (not_lt.mpr h)
    · exact fun hc => absurd hc.2 (not_le.mpr h1)
  have hc : c.local_normal_at p = Vec4.vec p.x 0 p.z := by
    simp only [Cone.local_normal_at]
    rw [if_neg hcap1, if_neg hcap2]
  have hcy : cy.local_normal_at p = Vec4.vec p.x 0 p.z := by
    simp only [Cylinder.local_normal_at]
    rw [if_neg (hl ▸ hcap1), if_neg (hl ▸ hcap2)]
  exact ⟨hc, hc.trans hcy.symm⟩

/-- C10 witness: the cone and cylinder limited to y ∈ (0, 1) at local point (3, 1/2, 4, 0): lateral distance 25 ≥ 1, and the normal is (3, 0, 4). -/
theorem cone_lateral_normal_eq_cylinder_witness :
    exampleCone.limit_y = exampleCylinder.limit_y ∧
      (1 ≤ (Vec4.mk 3 (1/2) 4 0).x ^ 2 + (Vec4.mk 3 (1/2) 4 0).z ^ 2 ∨
        (exampleCone.limit_y.1 + EPSILON < (Vec4.mk 3 (1/2) 4 0).y ∧
          (Vec4.mk 3 (1/2) 4 0).y < exampleCone.limit_y.2 - EPSILON)) ∧
      exampleCone.local_normal_at (Vec4.mk 3 (1/2) 4 0) = Vec4.vec 3 0 4 ∧
      exampleCone.local_normal_at (Vec4.mk 3 (1/2) 4 0) =
        exampleCylinder.local_normal_at (Vec4.mk 3 (1/2) 4 0) :=
  ⟨by simp [exampleCone, exampleCylinder],
   by left; norm_num,
   (cone_lateral_normal_eq_cylinder exampleCone exampleCylinder (Vec4.mk 3 (1/2) 4 0)
      (by simp [exampleCone, exampleCylinder]) (by left; norm_num)).1,
   (cone_lateral_normal_eq_cylinder exampleCone exampleCylinder (Vec4.mk 3 (1/2) 4 0)
      (by simp [exampleCone, exampleCylinder]) (by left; norm_num)).2⟩

/-- C7: for every 4×4 matrix with non-zero determinant, `Mat4::inverse` succeeds, the inverse's inverse succeeds as well, and the result matches the original matrix within EPSILON per component (here: exactly, so the epsilon bound holds). -/
theorem matrix_inverse_inverse_approx (m : Mat4) (h : m.determinant ≠ 0) :
    ∃ m1 m2, m.inverse = Except.ok m1 ∧ m1.inverse = Except.ok m2 ∧
      m2.approxEq m := by
  have hm1def : m.inverse = Except.ok (m.invertUnchecked m.determinant) := by
    simp [Mat4.inverse, h]
  have hr : Mat4.mul m (m.invertUnchecked m.determinant) = Mat4.IDENTITY :=
    Mat4.mul_invertUnchecked_general m _ h rfl
  have hl : Mat4.mul (m.invertUnchecked m.determinant) m = Mat4.IDENTITY :=
    Mat4.invertUnchecked_mul_general m _ h rfl
  have hdet1 : (m.invertUnchecked m.determinant).determinant * m.determinant = 1 := by
    have hdm := Mat4.determinant_mul (m.invertUnchecked m.determinant) m
    rw [hl, Mat4.determinant_IDENTITY] at hdm
    exact hdm.symm
  have h1 : (m.invertUnchecked m.determinant).determinant ≠ 0 := by
    intro hz
    rw [hz, zero_mul] at hdet1
    exact zero_ne_one hdet1
  have hm2def : (m.invertUnchecked m.determinant).inverse =
      Except.ok ((m.invertUnchecked m.determinant).invertUnchecked
        (m.invertUnchecked m.determinant).determinant) := by
    simp [Mat4.inverse, h1]
  have h12 : Mat4.mul (m.invertUnchecked m.determinant)
      ((m.invertUnchecked m.determinant).invertUnchecked
        (m.invertUnchecked m.determinant).determinant) = Mat4.IDENTITY :=
    Mat4.mul_invertUnchecked_general _ _ h1 rfl
  have hm2m : (m.invertUnchecked m.determinant).invertUnchecked
      (m.invertUnchecked m.determinant).determinant = m := by
    calc (m.invertUnchecked m.determinant).invertUnchecked
          (m.invertUnchecked m.determinant).determinant
        = Mat4.mul Mat4.IDENTITY ((m.invertUnchecked m.determinant).invertUnchecked
            (m.invertUnchecked m.determinant).determinant) := (Mat4.IDENTITY_mul _).symm
      _ = Mat4.mul (Mat4.mul m (m.invertUnchecked m.determinant))
            ((m.invertUnchecked m.determinant).invertUnchecked
              (m.invertUnchecked m.determinant).determinant) := by rw [hr]
      _ = Mat4.mul m (Mat4.mul (m.invertUnchecked m.determinant)
            ((m.invertUnchecked m.determinant).invertUnchecked
              (m.invertUnchecked m.determinant).determinant)) := Mat4.mul_assoc4 _ _ _
      _ = Mat4.mul m Mat4.IDENTITY := by rw [h12]
      _ = m := Mat4.mul_IDENTITY m
  refine ⟨_, _, hm1def, hm2def, ?_⟩
  rw [hm2m]
  exact Mat4.approxEq_refl m

/-- C7 witness: the round trip applied to the concrete translation by (2, 3, 4), whose determinant 1 is non-zero. -/
theorem matrix_inverse_inverse_approx_witness :
    (Mat4.translation 2 3 4).determinant ≠ 0 ∧
      ∃ m1 m2, (Mat4.translation 2 3 4).inverse = Except.ok m1 ∧
        m1.inverse = Except.ok m2 ∧ m2.approxEq (Mat4.translation 2 3 4) := by
  have h : (Mat4.translation 2 3 4).determinant ≠ 0 := by
    rw [Mat4.determinant_expand]
    norm_num [Mat4.translation]
  exact ⟨h, matrix_inverse_inverse_approx (Mat4.translation 2 3 4) h⟩

/-- C5 counterexample: at pattern-space x = -2 with three colors, the source indexes `|floor(x)| mod 3 = 2` (BLACK), while the claim's mathematical modulus gives `floor(x) mod 3 = (-2) mod 3 = 1` (WHITE) — different colors. -/
theorem stripe_negative_x_not_math_mod :
    stripePat3.local_pattern_at (Vec4.point (-2) 0 0) = some Color.BLACK ∧
      stripePat3.colors[((Rat.floor (Vec4.point (-2) 0 0).x) % (3:ℤ)).toNat]? =
        some Color.WHITE ∧
      Color.BLACK ≠ Color.WHITE := by
  refine ⟨?_, by decide, by decide⟩
  decide

/-- C5 amended: for every stripe pattern with at least two colors and every pattern-space point, `local_pattern_at` returns the color at index `|floor(p.x)|  mod N` — the absolute value of the floor, which agrees with the mathematical modulus for non-negative x (and for N = 2) but not in general. -/
theorem stripe_local_pattern_at_abs_floor_mod (p : StripePattern) (pt : Vec4)
    (h : 2 ≤ p.colors.length) :
    p.local_pattern_at pt = p.colors[(Rat.floor pt.x).natAbs % p.colors.length]? := by
  have h0 : p.colors.length ≠ 0 := by omega
  rw [StripePattern.local_pattern_at, dif_neg h0]
  rw [List.getElem?_eq_getElem (Nat.mod_lt _ (Nat.pos_of_ne_zero h0))]
  simp [List.get_eq_getElem]

/-- C5 amended, witness: the three-color pattern at x = -2 yields the color at index 2. -/
theorem stripe_local_pattern_at_abs_floor_mod_witness :
    2 ≤ stripePat3.colors.length ∧
      stripePat3.local_pattern_at (Vec4.point (-2) 0 0) =
        stripePat3.colors[(Rat.floor (Vec4.point (-2) 0 0).x).natAbs % stripePat3.colors.length]? :=
  ⟨by decide, stripe_local_pattern_at_abs_floor_mod stripePat3 (Vec4.point (-2) 0 0) (by decide)⟩

/-- C4 (code bug): `Sphere::set_transform` re-derives the cached inverse, but the composing `Shape::transform` method does not — after `transform(translation(2,3,4))` on a default sphere the stored forward transform is the translation, whose actual inverse is `translation(-2,-3,-4)`, yet the stored inverse is still the identity. -/
theorem compose_transform_leaves_stale_inverse :
    defaultSphere.set_transform (Mat4.translation 2 3 4) =
        some (Sphere.mk 0 (Mat4.translation 2 3 4) (Mat4.translation (-2) (-3) (-4))
          Material.default) ∧
      (defaultSphere.compose_transform (Mat4.translation 2 3 4)).transform =
        Mat4.translation 2 3 4 ∧
      (defaultSphere.compose_transform (Mat4.translation 2 3 4)).inverse_transform =
        Mat4.IDENTITY ∧
      Mat4.inverse ((defaultSphere.compose_transform (Mat4.translation 2 3 4)).transform) =
        Except.ok (Mat4.translation (-2) (-3) (-4)) ∧
      Mat4.IDENTITY ≠ Mat4.translation (-2) (-3) (-4) := by
  have hdet : (Mat4.translation 2 3 4).determinant = 1 := by
    rw [Mat4.determinant_expand]
    norm_num [Mat4.translation]
  have hunc : (Mat4.translation 2 3 4).invertUnchecked 1 =
      Mat4.translation (-2) (-3) (-4) := by
    rw [Mat4.invertUnchecked_expand]
    norm_num [Mat4.translation]
  have hinv : Mat4.inverse (Mat4.translation 2 3 4) =
      Except.ok (Mat4.translation (-2) (-3) (-4)) := by
    rw [Mat4.inverse, hdet, if_neg one_ne_zero, hunc]
  have hmul : Mat4.mul (Mat4.translation 2 3 4) Mat4.IDENTITY = Mat4.translation 2 3 4 := by
    norm_num [Mat4.mul, Mat4.translation, Mat4.IDENTITY]
  refine ⟨?_, ?_, ?_, ?_, ?_⟩
  · rw [Sphere.set_transform, hinv]
    simp [defaultSphere]
  · simp [Sphere.compose_transform, defaultSphere, hmul]
  · simp [Sphere.compose_transform, defaultSphere]
  · show Mat4.inverse (Mat4.mul (Mat4.translation 2 3 4) defaultSphere.transform) = _
    rw [show defaultSphere.transform = Mat4.IDENTITY from rfl, hmul, hinv]
  · intro hcontra
    have := congrArg Mat4.a03 hcontra
    norm_num [Mat4.IDENTITY, Mat4.translation] at this

/-- Helper for C1: in a list sorted by `t`, the first element that `find?` accepts with non-negative `t` has the smallest `t` among all elements with non-negative `t`. -/
theorem find?_nonneg_min_of_sorted (l : List Intersection)
    (hs : List.Sorted (fun a b : Intersection => a.t ≤ b.t) l)
    (i : Intersection) (hf : l.find? (fun x => x.t ≥ 0) = some i) :
    ∀ j ∈ l, 0 ≤ j.t → i.t ≤ j.t := by
  induction l with
  | nil => simp at hf
  | cons a l ih =>
    rw [List.sorted_cons] at hs
    intro j hj hjt
    by_cases ha : a.t ≥ 0
    · rw [List.find?_cons_of_pos _ (by simpa using ha)] at hf
      have hia : i = a := by simpa using hf.symm
      subst hia
      rcases List.mem_cons.mp hj with rfl | hjl
      · exact le_refl _
      · exact hs.1 j hjl
    · rw [List.find?_cons_of_neg _ (by simpa using ha)] at hf
      rcases List.mem_cons.mp hj with rfl | hjl
      · exact absurd hjt ha
      · exact ih hs.2 hf j hjl hjt

/-- C1: on a `t`-sorted collection, `Intersections::hit` returns `none` exactly when every element has negative `t`, and otherwise returns an element of the collection with non-negative `t` that is minimal among all elements with non-negative `t`. -/
theorem hit_smallest_nonneg (xs : Intersections)
    (hs : List.Sorted (fun a b : Intersection => a.t ≤ b.t) xs.inner) :
    (xs.hit = none ↔ ∀ i ∈ xs.inner, i.t < 0) ∧
      ∀ i, xs.hit = some i →
        i ∈ xs.inner ∧ 0 ≤ i.t ∧ ∀ j ∈ xs.inner, 0 ≤ j.t → i.t ≤ j.t := by
  constructor
  · rw [Intersections.hit, List.find?_eq_none]
    constructor
    · intro h i hi
      have := h i hi
      simpa using this
    · intro h i hi
      simpa using h i hi
  · intro i hf
    rw [Intersections.hit] at hf
    refine ⟨List.mem_of_find?_eq_some hf, ?_, ?_⟩
    · have := List.find?_some hf
      simpa using this
    · exact find?_nonneg_min_of_sorted xs.inner hs i hf

/-- C1 witness: the concrete sorted collection with t-values -3, 2, 5; `hit` returns the t = 2 element, which is minimal among the non-negative ones. -/
theorem hit_smallest_nonneg_witness :
    List.Sorted (fun a b : Intersection => a.t ≤ b.t) hitWitnessXs.inner ∧
      ((hitWitnessXs.hit = none ↔ ∀ i ∈ hitWitnessXs.inner, i.t < 0) ∧
        ∀ i, hitWitnessXs.hit = some i →
          i ∈ hitWitnessXs.inner ∧ 0 ≤ i.t ∧
            ∀ j ∈ hitWitnessXs.inner, 0 ≤ j.t → i.t ≤ j.t) :=
  ⟨by decide, hit_smallest_nonneg hitWitnessXs (by decide)⟩

/-- C9: whatever each shape's dispatched `intersect` returns, the collection produced by `World::intersect` is sorted in non-decreasing order of `t` (the appended lists are sorted as the final step). -/
theorem world_intersect_sorted (object_intersect : BoxShape → Ray → Intersections)
    (w : World) (ray : Ray) :
    List.Sorted (fun a b : Intersection => a.t ≤ b.t)
      ((World.intersect object_intersect w ray).inner) := by
  have h := @List.sorted_mergeSort Intersection
    (fun a b : Intersection => decide (a.t ≤ b.t))
    (fun a b c : Intersection => by
      simp only [decide_eq_true_eq]
      exact fun hab hbc => le_trans hab hbc)
    (fun a b : Intersection => by
      simp only [Bool.or_eq_true, decide_eq_true_eq]
      exact le_total a.t b.t)
    ((w.objects.foldl
        (fun intersections object => intersections.append (object_intersect object ray))
        Intersections.new).inner)
  refine List.Pairwise.imp ?_ h
  intro a b hab
  simpa using hab

/-- Helper for C3: the source loop of `PreCompute::new`, started from any containers list and any initial `n1`/`n2`, agrees with the claim's scan description whenever the scanned list contains the target hit. -/
theorem n1n2_loop_eq_spec (xs : List Intersection) (i : Intersection) :
    ∀ (containers : List BoxShape) (n1 n2 : ℚ),
      (∃ xi ∈ xs, Intersection.peq xi i) →
      ∃ q, n1n2SpecScan i xs containers = some q ∧
        PreCompute.n1n2 i xs containers n1 n2 = q := by
  induction xs with
  | nil => intro c n1 n2 h; simp at h
  | cons a rest ih =>
    intro c n1 n2 h
    by_cases ha : Intersection.peq a i
    · refine ⟨(PreCompute.lastRefractiveOrVacuum c,
        PreCompute.lastRefractiveOrVacuum (PreCompute.toggleContainer c a.object)), ?_, ?_⟩
      · simp [n1n2SpecScan, ha]
      · simp [PreCompute.n1n2, ha]
    · have h' : ∃ xi ∈ rest, Intersection.peq xi i := by
        rcases h with ⟨xi, hmem, hp⟩
        rcases List.mem_cons.mp hmem with rfl | hrest
        · exact absurd hp (by simpa using ha)
        · exact ⟨xi, hrest, hp⟩
      obtain ⟨q, h1, h2⟩ := ih (PreCompute.toggleContainer c a.object) n1 n2 h'
      refine ⟨q, ?_, ?_⟩
      · simp [n1n2SpecScan, ha, h1]
      · simp [PreCompute.n1n2, ha, h2]

/-- C3: for every target hit and intersection list containing it, the `(n1, n2)` computed by the loop of `PreCompute::new` (containers empty, `n1 = n2 = 0` initially) equals the value described by the spec's scan: `n1` from the innermost container (vacuum 1.0 if none) at the target hit, membership toggle, `n2` from the innermost container afterwards, scan stopped there. -/
theorem precompute_n1n2_follows_spec_scan (i : Intersection) (xs : List Intersection)
    (h : ∃ xi ∈ xs, Intersection.peq xi i) :
    ∃ q, n1n2SpecScan i xs [] = some q ∧ PreCompute.n1n2 i xs [] 0 0 = q :=
  n1n2_loop_eq_spec xs i [] 0 0 h

/-- C3 witness: a glass sphere entered at t = 4 and left at t = 6; at the entry hit the scan yields n1 = 1 (vacuum) and n2 = 3/2 (the glass). -/
theorem precompute_n1n2_follows_spec_scan_witness :
    (∃ xi ∈ glassXs, Intersection.peq xi glassHit) ∧
      ∃ q, n1n2SpecScan glassHit glassXs [] = some q ∧
        PreCompute.n1n2 glassHit glassXs [] 0 0 = q := by
  have h : ∃ xi ∈ glassXs, Intersection.peq xi glassHit := by
    refine ⟨glassHit, by simp [glassXs, glassHit], ?_⟩
    simp [Intersection.peq, glassHit, BoxShape.box_eq, Material.peq, Color.peq,
      glassSphere, Material.default, EPSILON]
  exact ⟨h, precompute_n1n2_follows_spec_scan glassHit glassXs h⟩

end RT
